import Mathlib

/-!
Shallow embedding of the participant-controller handlers of the
haaflah-backend repository (src/controllers participant handlers).
Each Express handler is modelled as a pure function from an explicit
database state (plus the request data and the nondeterministic inputs
such as random bytes, fresh primary keys and clock readings) to a
response paired with the resulting database state.  Sequelize calls are
modelled as list operations on the database state: findByPk is find? by
primary key, create appends a row, increment and decrement map over the
matching row, destroy filters the row out.
-/

namespace Haaflah

/-- Event row, fields as read by the participant controller.  The
capacity column is nullable (none models SQL NULL).  Counters are Int,
matching a SQL integer column that increment and decrement act on. -/
structure Event where
  id : Nat
  name : String
  date : String
  venue : String
  status : String
  capacity : Option Int
  totalRegistrations : Int
  totalAttendees : Int
  organizerId : Nat
  requiresApproval : Bool
deriving DecidableEq, Repr

/-- Participant row as created and mutated by the controller. -/
structure Participant where
  id : Nat
  eventId : Nat
  firstName : String
  lastName : String
  email : String
  ticketNumber : String
  status : String
  checkedIn : Bool
  checkInTime : Option Nat
  checkInMethod : String
  registrationDate : Nat
deriving DecidableEq, Repr

/-- The relational store: the Event table and the Participant table. -/
structure DB where
  events : List Event
  participants : List Participant
deriving DecidableEq, Repr

/-- The authenticated caller (req.user), produced upstream. -/
structure User where
  id : Nat
  role : String
deriving DecidableEq, Repr

/-- An HTTP JSON response: res.status(code).json with either a success
payload or an error message object. -/
inductive Resp (α : Type) where
  | ok (code : Nat) (payload : α)
  | err (code : Nat) (msg : String)
deriving DecidableEq, Repr

/-- Event.findByPk. -/
def findEvent (db : DB) (eid : Nat) : Option Event :=
  db.events.find? (fun e => e.id == eid)

/-- Participant.findByPk. -/
def findParticipant (db : DB) (pid : Nat) : Option Participant :=
  db.participants.find? (fun p => p.id == pid)

/-- Models a Sequelize instance update on the event row with the given
primary key (used for increment and decrement of counters). -/
def updateEvent (db : DB) (eid : Nat) (f : Event → Event) : DB :=
  { db with events := db.events.map (fun e => if e.id == eid then f e else e) }

/-- Models a Sequelize instance update on the participant row with the
given primary key. -/
def updateParticipantRow (db : DB) (pid : Nat) (f : Participant → Participant) : DB :=
  { db with participants := db.participants.map (fun p => if p.id == pid then f p else p) }

/-- JavaScript truthiness of the capacity column: null and 0 are falsy,
every other number is truthy. -/
def capTruthy : Option Int → Bool
  | none => false
  | some c => !(c == 0)

/-- The capacity guard of registerParticipant, line for line:
event.capacity is truthy and event.totalRegistrations is at least
event.capacity. -/
def capacityFull (e : Event) : Bool :=
  capTruthy e.capacity && decide (e.capacity.getD 0 ≤ e.totalRegistrations)

/-- The authorization guard shared by the handlers:
event.organizerId differs from req.user.id and req.user.role is not
the admin role. -/
def deniedB (e : Event) (u : User) : Bool :=
  !(e.organizerId == u.id) && !(u.role == "admin")

/-- One uppercase hexadecimal digit character for a value below 16. -/
def hexDigitUpper (n : Nat) : Char :=
  if n < 10 then Char.ofNat (48 + n) else Char.ofNat (55 + n)

/-- Uppercase hexadecimal rendering of a byte list, two characters per
byte, modelling buf.toString(hex).toUpperCase(). -/
def bytesToHexChars : List Nat → List Char
  | [] => []
  | b :: t => hexDigitUpper (b / 16) :: hexDigitUpper (b % 16) :: bytesToHexChars t

/-- String form of the hexadecimal rendering. -/
def bytesToHexUpper (bs : List Nat) : String :=
  String.mk (bytesToHexChars bs)

/-- Registration request body.  The three optional fields model keys a
client may also send in the body; the spread in the source puts the
server-chosen eventId, ticketNumber and status after the body, so these
keys are overwritten. -/
structure RegBody where
  firstName : String
  lastName : String
  email : String
  eventId : Option Nat := none
  ticketNumber : Option String := none
  status : Option String := none
deriving DecidableEq, Repr

/-- Participant.create with the object literal of the source:
the body is spread first, then eventId, ticketNumber and status are
written, overriding any body-supplied values for those keys.
Modelled from the spec: the column defaults of the Participant model
(models/index.js is not under src/): checkedIn false, checkInTime null,
checkInMethod manual, registrationDate the creation timestamp. -/
def spreadCreate (body : RegBody) (eventId : Nat) (ticketNumber : String)
    (status : String) (newId : Nat) (now : Nat) : Participant :=
  let fromBody : Participant :=
    { id := newId
      eventId := body.eventId.getD 0
      firstName := body.firstName
      lastName := body.lastName
      email := body.email
      ticketNumber := body.ticketNumber.getD ""
      status := body.status.getD ""
      checkedIn := false
      checkInTime := none
      checkInMethod := "manual"
      registrationDate := now }
  { fromBody with eventId := eventId, ticketNumber := ticketNumber, status := status }

/-- registerParticipant.  Parameters beyond the request: randomBytes
models crypto.randomBytes(4) as a list of byte values, newId the fresh
primary key chosen by the store, now the clock, and enqueueFails whether
the addEmailJob call throws (in which case the outer catch converts the
exception into the generic 500 response after the row was created and
the counter incremented). -/
def registerParticipant (db : DB) (eventId : Nat) (body : RegBody)
    (randomBytes : List Nat) (newId : Nat) (now : Nat) (enqueueFails : Bool) :
    Resp Participant × DB :=
  match findEvent db eventId with
  | none => (.err 404 "Event not found", db)
  | some event =>
    if event.status ≠ "published" then
      (.err 400 "Event is not open for registration", db)
    else if capacityFull event then
      (.err 400 "Event is at full capacity", db)
    else if db.participants.any (fun p => p.eventId == eventId && p.email == body.email) then
      (.err 400 "Already registered for this event", db)
    else
      let ticketNumber := "TKT-" ++ bytesToHexUpper randomBytes
      let status := if event.requiresApproval then "registered" else "confirmed"
      let participant := spreadCreate body eventId ticketNumber status newId now
      let db1 : DB := { db with participants := db.participants ++ [participant] }
      let db2 := updateEvent db1 event.id
        (fun e => { e with totalRegistrations := e.totalRegistrations + 1 })
      if enqueueFails then (.err 500 "Failed to register participant", db2)
      else (.ok 201 participant, db2)

/-- Query string of the listing endpoint. -/
structure ListQuery where
  status : Option String := none
  checkedIn : Option String := none
  search : Option String := none
  page : Nat := 1
  limit : Nat := 50
deriving DecidableEq, Repr

/-- Containment of one character list in another, used to model the SQL
iLike operator with wildcards on both sides. -/
def containsSub (needle : List Char) : List Char → Bool
  | [] => needle.isEmpty
  | c :: t => needle.isPrefixOf (c :: t) || containsSub needle t

/-- Case-insensitive substring match, modelling iLike with a pattern of
the form percent-search-percent. -/
def ilike (search s : String) : Bool :=
  containsSub search.toLower.toList s.toLower.toList

/-- The where object built by getEventParticipants. -/
def matchesQuery (q : ListQuery) (eventId : Nat) (p : Participant) : Bool :=
  p.eventId == eventId
  && (match q.status with | none => true | some s => p.status == s)
  && (match q.checkedIn with | none => true | some s => p.checkedIn == (s == "true"))
  && (match q.search with
      | none => true
      | some s => ilike s p.firstName || ilike s p.lastName || ilike s p.email)

/-- Insertion step for ordering by registrationDate descending. -/
def insertByRegDate (p : Participant) : List Participant → List Participant
  | [] => [p]
  | q :: t => if p.registrationDate > q.registrationDate then p :: q :: t
              else q :: insertByRegDate p t

/-- Order by registrationDate descending, the order clause of the
listing query. -/
def sortByRegDateDesc : List Participant → List Participant
  | [] => []
  | p :: t => insertByRegDate p (sortByRegDateDesc t)

/-- Payload of the listing endpoint. -/
structure ListPayload where
  participants : List Participant
  total : Nat
  page : Nat
  totalPages : Nat
deriving DecidableEq, Repr

/-- getEventParticipants: resolve the event, authorize, then run the
filtered, ordered, paginated query. -/
def getEventParticipants (db : DB) (eventId : Nat) (q : ListQuery) (user : User) :
    Resp ListPayload × DB :=
  match findEvent db eventId with
  | none => (.err 404 "Event not found", db)
  | some event =>
    if deniedB event user then (.err 403 "Access denied", db)
    else
      let matching := db.participants.filter (matchesQuery q eventId)
      let offset := (q.page - 1) * q.limit
      let rows := ((sortByRegDateDesc matching).drop offset).take q.limit
      (.ok 200
        { participants := rows
          total := matching.length
          page := q.page
          totalPages := (matching.length + q.limit - 1) / q.limit }, db)

/-- getParticipantById.  When the participant exists but its event row
does not, the source dereferences organizerId on null: the TypeError is
caught by the outer handler, which responds with the generic 500. -/
def getParticipantById (db : DB) (pid : Nat) (user : User) : Resp Participant × DB :=
  match findParticipant db pid with
  | none => (.err 404 "Participant not found", db)
  | some participant =>
    match findEvent db participant.eventId with
    | none => (.err 500 "Failed to fetch participant", db)
    | some event =>
      if deniedB event user then (.err 403 "Access denied", db)
      else (.ok 200 participant, db)

/-- Update request body: the partial field set applied by
participant.update(req.body). -/
structure UpdateBody where
  firstName : Option String := none
  lastName : Option String := none
  email : Option String := none
  status : Option String := none
  checkedIn : Option Bool := none
  ticketNumber : Option String := none
deriving DecidableEq, Repr

/-- Application of a partial update to a row. -/
def applyUpdate (b : UpdateBody) (p : Participant) : Participant :=
  { p with
    firstName := b.firstName.getD p.firstName
    lastName := b.lastName.getD p.lastName
    email := b.email.getD p.email
    status := b.status.getD p.status
    checkedIn := b.checkedIn.getD p.checkedIn
    ticketNumber := b.ticketNumber.getD p.ticketNumber }

/-- updateParticipant, with the same null-event behaviour as
getParticipantById. -/
def updateParticipant (db : DB) (pid : Nat) (body : UpdateBody) (user : User) :
    Resp Participant × DB :=
  match findParticipant db pid with
  | none => (.err 404 "Participant not found", db)
  | some participant =>
    match findEvent db participant.eventId with
    | none => (.err 500 "Failed to update participant", db)
    | some event =>
      if deniedB event user then (.err 403 "Access denied", db)
      else
        (.ok 200 (applyUpdate body participant),
         updateParticipantRow db pid (applyUpdate body))

/-- deleteParticipant: destroy the row, then decrement
totalRegistrations on the owning event. -/
def deleteParticipant (db : DB) (pid : Nat) (user : User) : Resp String × DB :=
  match findParticipant db pid with
  | none => (.err 404 "Participant not found", db)
  | some participant =>
    match findEvent db participant.eventId with
    | none => (.err 500 "Failed to delete participant", db)
    | some event =>
      if deniedB event user then (.err 403 "Access denied", db)
      else
        let db1 : DB := { db with participants := db.participants.filter (fun q => !(q.id == pid)) }
        let db2 := updateEvent db1 event.id
          (fun e => { e with totalRegistrations := e.totalRegistrations - 1 })
        (.ok 200 "Participant deleted successfully", db2)

/-- The field set written by a check-in. -/
def checkInFields (method : String) (now : Nat) (p : Participant) : Participant :=
  { p with checkedIn := true, checkInTime := some now, checkInMethod := method,
           status := "attended" }

/-- checkInParticipant: resolve, authorize, reject a second check-in,
otherwise write the check-in fields and increment totalAttendees. -/
def checkInParticipant (db : DB) (pid : Nat) (method : Option String)
    (user : User) (now : Nat) : Resp Participant × DB :=
  let checkInMethod := method.getD "manual"
  match findParticipant db pid with
  | none => (.err 404 "Participant not found", db)
  | some participant =>
    match findEvent db participant.eventId with
    | none => (.err 500 "Failed to check in participant", db)
    | some event =>
      if deniedB event user then (.err 403 "Access denied", db)
      else if participant.checkedIn then
        (.err 400 "Participant already checked in", db)
      else
        let db1 := updateParticipantRow db pid (checkInFields checkInMethod now)
        let db2 := updateEvent db1 event.id
          (fun e => { e with totalAttendees := e.totalAttendees + 1 })
        (.ok 200 (checkInFields checkInMethod now participant), db2)

/-- The for-loop of bulkCheckIn: walk the fetched participants in order,
update every row not yet checked in, and accumulate the updated
instances. -/
def bulkUpdateLoop (method : String) (now : Nat) (db : DB) :
    List Participant → DB × List Participant
  | [] => (db, [])
  | p :: rest =>
    if p.checkedIn then bulkUpdateLoop method now db rest
    else
      let db2 := updateParticipantRow db p.id (checkInFields method now)
      let res := bulkUpdateLoop method now db2 rest
      (res.1, checkInFields method now p :: res.2)

/-- bulkCheckIn.  The ids argument is none when req.body.participantIds
is absent or not an array.  Authorization is checked against the event
of the first fetched participant only, then every not-yet-checked-in
participant is updated and totalAttendees is incremented once by the
number of updates. -/
def bulkCheckIn (db : DB) (ids : Option (List Nat)) (method : Option String)
    (user : User) (now : Nat) : Resp (List Participant) × DB :=
  let checkInMethod := method.getD "manual"
  match ids with
  | none => (.err 400 "participantIds must be an array", db)
  | some participantIds =>
    let participants := db.participants.filter
      (fun p => participantIds.any (fun i => i == p.id))
    match participants with
    | [] => (.err 404 "No participants found", db)
    | first :: _ =>
      match findEvent db first.eventId with
      | none => (.err 500 "Failed to bulk check in", db)
      | some event =>
        if deniedB event user then (.err 403 "Access denied", db)
        else
          let res := bulkUpdateLoop checkInMethod now db participants
          let db2 := updateEvent res.1 event.id
            (fun e => { e with totalAttendees := e.totalAttendees + res.2.length })
          (.ok 200 res.2, db2)

/-- True when c is one of the sixteen uppercase hexadecimal digit
characters. -/
def isHexUpperDigit (c : Char) : Bool :=
  (decide ('0' ≤ c) && decide (c ≤ '9')) || (decide ('A' ≤ c) && decide (c ≤ 'F'))

/-- The ticket number pattern TKT- followed by exactly eight uppercase
hexadecimal digit characters. -/
def isTicketFormat (s : String) : Bool :=
  match s.toList with
  | 'T' :: 'K' :: 'T' :: '-' :: rest => rest.length == 8 && rest.all isHexUpperDigit
  | _ => false

/-! Concrete scenario data used by witnesses and counterexamples. -/

/-- A published event with a nonzero capacity that is exactly reached. -/
def evFull : Event :=
  { id := 1, name := "Gala", date := "2026-01-01", venue := "Hall",
    status := "published", capacity := some 2, totalRegistrations := 2,
    totalAttendees := 0, organizerId := 7, requiresApproval := false }

/-- Store holding only the full event. -/
def dbFull : DB := { events := [evFull], participants := [] }

/-- A published event whose capacity column is set to 0 and whose
registration counter equals that capacity. -/
def evZero : Event :=
  { id := 1, name := "Gala", date := "2026-01-01", venue := "Hall",
    status := "published", capacity := some 0, totalRegistrations := 0,
    totalAttendees := 0, organizerId := 7, requiresApproval := false }

/-- Store holding only the zero-capacity event. -/
def dbZero : DB := { events := [evZero], participants := [] }

/-- A participant of event 1 registered under the address a@x.com. -/
def pDup : Participant :=
  { id := 3, eventId := 1, firstName := "Ada", lastName := "L",
    email := "a@x.com", ticketNumber := "TKT-0A0A0A0A", status := "confirmed",
    checkedIn := false, checkInTime := none, checkInMethod := "manual",
    registrationDate := 1 }

/-- Store with the zero-capacity event and one existing registration. -/
def dbZeroDup : DB := { events := [evZero], participants := [pDup] }

/-- A published event with no capacity bound. -/
def evOpen : Event :=
  { id := 1, name := "Gala", date := "2026-01-01", venue := "Hall",
    status := "published", capacity := none, totalRegistrations := 1,
    totalAttendees := 0, organizerId := 7, requiresApproval := false }

/-- Store with the open event and one registered, not yet checked-in
participant. -/
def dbReg : DB := { events := [evOpen], participants := [pDup] }

/-- Store with the open event and no participants. -/
def dbOpen : DB := { events := [evOpen], participants := [] }

/-- A participant whose owning event row does not exist. -/
def pOrphan : Participant :=
  { id := 4, eventId := 99, firstName := "Bob", lastName := "M",
    email := "b@x.com", ticketNumber := "TKT-0B0B0B0B", status := "confirmed",
    checkedIn := false, checkInTime := none, checkInMethod := "manual",
    registrationDate := 2 }

/-- Store with the open event and the orphaned participant. -/
def dbOrphan : DB := { events := [evOpen], participants := [pOrphan] }

/-- Registration request body used by the concrete scenarios. -/
def bodyA : RegBody := { firstName := "Ada", lastName := "L", email := "a@x.com" }

/-- Registration request body equal to bodyA except that it also smuggles
eventId, ticketNumber and status keys. -/
def bodyB : RegBody :=
  { firstName := "Ada", lastName := "L", email := "a@x.com",
    eventId := some 42, ticketNumber := some "HACK", status := some "attended" }

/-- The organizer of event 1. -/
def organizer7 : User := { id := 7, role := "organizer" }

/-- A caller who is neither the organizer nor an admin. -/
def stranger8 : User := { id := 8, role := "user" }

/-- Participants for the bulk check-in scenario: ids 1 and 5 not yet
checked in, id 2 already checked in, all of event 1. -/
def pB1 : Participant :=
  { id := 1, eventId := 1, firstName := "P1", lastName := "X",
    email := "p1@x.com", ticketNumber := "TKT-00000001", status := "confirmed",
    checkedIn := false, checkInTime := none, checkInMethod := "manual",
    registrationDate := 3 }

/-- Bulk scenario participant already checked in. -/
def pB2 : Participant :=
  { id := 2, eventId := 1, firstName := "P2", lastName := "Y",
    email := "p2@x.com", ticketNumber := "TKT-00000002", status := "attended",
    checkedIn := true, checkInTime := some 4, checkInMethod := "manual",
    registrationDate := 4 }

/-- Bulk scenario participant not yet checked in. -/
def pB3 : Participant :=
  { id := 5, eventId := 1, firstName := "P3", lastName := "Z",
    email := "p3@x.com", ticketNumber := "TKT-00000003", status := "confirmed",
    checkedIn := false, checkInTime := none, checkInMethod := "manual",
    registrationDate := 5 }

/-- Store for the bulk check-in scenario. -/
def dbBulk : DB := { events := [evOpen], participants := [pB1, pB2, pB3] }

/-! Helper lemmas about lookups through row updates. -/

/-- Head step of find? when the predicate holds at the head. -/
theorem find?_cons_true {α : Type} (p : α → Bool) (a : α) (l : List α) (h : p a = true) :
    (a :: l).find? p = some a := by
  simp only [List.find?, h]

/-- Head step of find? when the predicate fails at the head. -/
theorem find?_cons_false {α : Type} (p : α → Bool) (a : α) (l : List α) (h : p a = false) :
    (a :: l).find? p = l.find? p := by
  simp only [List.find?, h]

/-- Head step of filter when the predicate holds at the head. -/
theorem filter_cons_true {α : Type} (p : α → Bool) (a : α) (l : List α) (h : p a = true) :
    (a :: l).filter p = a :: l.filter p := by
  simp only [List.filter, h]

/-- Head step of filter when the predicate fails at the head. -/
theorem filter_cons_false {α : Type} (p : α → Bool) (a : α) (l : List α) (h : p a = false) :
    (a :: l).filter p = l.filter p := by
  simp only [List.filter, h]

/-- Generic shape of a keyed in-place row update followed by find?. -/
theorem find?_map_ite {α : Type} (key : α → Nat) (f : α → α) (hf : ∀ a, key (f a) = key a)
    (eid tid : Nat) (l : List α) :
    (l.map (fun a => if key a == eid then f a else a)).find? (fun a => key a == tid)
    = (l.find? (fun a => key a == tid)).map (fun a => if key a == eid then f a else a) := by
  induction l with
  | nil => rfl
  | cons a t ih =>
    have hkg : key (if (key a == eid) then f a else a) = key a := by
      by_cases hb : (key a == eid) = true
      · rw [if_pos hb, hf]
      · rw [if_neg hb]
    simp only [List.map_cons]
    cases hkt : (key a == tid) with
    | true =>
      rw [find?_cons_true (fun x => key x == tid)
            (if (key a == eid) then f a else a)
            (t.map (fun x => if (key x == eid) then f x else x))
            (by show (key (if (key a == eid) then f a else a) == tid) = true
                rw [hkg]; exact hkt),
          find?_cons_true (fun x => key x == tid) a t hkt]
      rfl
    | false =>
      rw [find?_cons_false (fun x => key x == tid)
            (if (key a == eid) then f a else a)
            (t.map (fun x => if (key x == eid) then f x else x))
            (by show (key (if (key a == eid) then f a else a) == tid) = false
                rw [hkg]; exact hkt),
          find?_cons_false (fun x => key x == tid) a t hkt, ih]

/-- Updating the row with a given key rewrites exactly the find? result
for that key. -/
theorem find?_map_ite_self {α : Type} (key : α → Nat) (f : α → α)
    (hf : ∀ a, key (f a) = key a) (eid : Nat) (l : List α) :
    (l.map (fun a => if key a == eid then f a else a)).find? (fun a => key a == eid)
    = (l.find? (fun a => key a == eid)).map f := by
  rw [find?_map_ite key f hf eid eid l]
  cases hfe : l.find? (fun a => key a == eid) with
  | none => rfl
  | some a =>
    have ha : key a = eid := by simpa using List.find?_some hfe
    simp [ha]

/-- Updating the row with one key leaves find? for any other key
unchanged. -/
theorem find?_map_ite_other {α : Type} (key : α → Nat) (f : α → α)
    (hf : ∀ a, key (f a) = key a) (eid tid : Nat) (h : tid ≠ eid) (l : List α) :
    (l.map (fun a => if key a == eid then f a else a)).find? (fun a => key a == tid)
    = l.find? (fun a => key a == tid) := by
  rw [find?_map_ite key f hf eid tid l]
  cases hfe : l.find? (fun a => key a == tid) with
  | none => rfl
  | some a =>
    have ha : key a = tid := by simpa using List.find?_some hfe
    simp [ha, h]

/-- Filtering a key out makes find? for that key fail. -/
theorem find?_filter_self {α : Type} (key : α → Nat) (pid : Nat) (l : List α) :
    (l.filter (fun a => !(key a == pid))).find? (fun a => key a == pid) = none := by
  rw [List.find?_eq_none]
  intro x hx
  simpa using (List.mem_filter.mp hx).2

/-- Filtering a key out leaves find? for any other key unchanged. -/
theorem find?_filter_ne {α : Type} (key : α → Nat) (pid tid : Nat) (h : tid ≠ pid)
    (l : List α) :
    (l.filter (fun a => !(key a == pid))).find? (fun a => key a == tid)
    = l.find? (fun a => key a == tid) := by
  induction l with
  | nil => rfl
  | cons a t ih =>
    by_cases hp : (key a == pid) = true
    · have hkey : key a = pid := eq_of_beq hp
      have ht : (key a == tid) = false := by
        simp only [hkey]
        simpa using Ne.symm h
      rw [filter_cons_false (fun x => !(key x == pid)) a t
            (by show (!(key a == pid)) = false; rw [hp]; rfl),
          find?_cons_false (fun x => key x == tid) a t ht, ih]
    · have hp' : (key a == pid) = false := by simpa using hp
      rw [filter_cons_true (fun x => !(key x == pid)) a t
            (by show (!(key a == pid)) = true; rw [hp']; rfl)]
      cases ht : (key a == tid) with
      | true =>
        rw [find?_cons_true (fun x => key x == tid) a (t.filter (fun x => !(key x == pid))) ht,
            find?_cons_true (fun x => key x == tid) a t ht]
      | false =>
        rw [find?_cons_false (fun x => key x == tid) a (t.filter (fun x => !(key x == pid))) ht,
            find?_cons_false (fun x => key x == tid) a t ht, ih]

/-- In a table whose key column has no duplicates, find? by the key of a
member row returns that row. -/
theorem find?_eq_self_of_nodup {α : Type} (key : α → Nat) (l : List α)
    (h : (l.map key).Nodup) (p : α) (hp : p ∈ l) :
    l.find? (fun a => key a == key p) = some p := by
  induction l with
  | nil => cases hp
  | cons a t ih =>
    rw [List.map_cons, List.nodup_cons] at h
    rcases List.mem_cons.mp hp with rfl | hpt
    · exact find?_cons_true _ _ _ (by simp)
    · have ha : key a ≠ key p := by
        intro hc
        exact h.1 (hc ▸ List.mem_map_of_mem key hpt)
      rw [find?_cons_false (fun x => key x == key p) a t (by simpa using ha), ih h.2 hpt]

/-- updateEvent does not touch the participant table. -/
theorem updateEvent_participants (db : DB) (eid : Nat) (f : Event → Event) :
    (updateEvent db eid f).participants = db.participants := rfl

/-- updateParticipantRow does not touch the event table. -/
theorem updateParticipantRow_events (db : DB) (pid : Nat) (f : Participant → Participant) :
    (updateParticipantRow db pid f).events = db.events := rfl

/-- Event lookup after an update of that event. -/
theorem findEvent_updateEvent_self (db : DB) (eid : Nat) (f : Event → Event)
    (hf : ∀ e, (f e).id = e.id) :
    findEvent (updateEvent db eid f) eid = (findEvent db eid).map f :=
  find?_map_ite_self Event.id f hf eid db.events

/-- Event lookup after an update of a different event. -/
theorem findEvent_updateEvent_other (db : DB) (eid tid : Nat) (f : Event → Event)
    (hf : ∀ e, (f e).id = e.id) (h : tid ≠ eid) :
    findEvent (updateEvent db eid f) tid = findEvent db tid :=
  find?_map_ite_other Event.id f hf eid tid h db.events

/-- Participant lookup after an update of that participant. -/
theorem findParticipant_update_self (db : DB) (pid : Nat) (f : Participant → Participant)
    (hf : ∀ p, (f p).id = p.id) :
    findParticipant (updateParticipantRow db pid f) pid = (findParticipant db pid).map f :=
  find?_map_ite_self Participant.id f hf pid db.participants

/-- Participant lookup after an update of a different participant. -/
theorem findParticipant_update_other (db : DB) (pid tid : Nat) (f : Participant → Participant)
    (hf : ∀ p, (f p).id = p.id) (h : tid ≠ pid) :
    findParticipant (updateParticipantRow db pid f) tid = findParticipant db tid :=
  find?_map_ite_other Participant.id f hf pid tid h db.participants

/-- Participant lookup is unchanged by updateEvent. -/
theorem findParticipant_updateEvent (db : DB) (eid : Nat) (f : Event → Event) (pid : Nat) :
    findParticipant (updateEvent db eid f) pid = findParticipant db pid := rfl

/-- Event lookup is unchanged by updateParticipantRow. -/
theorem findEvent_updateParticipantRow (db : DB) (pid : Nat) (f : Participant → Participant)
    (eid : Nat) :
    findEvent (updateParticipantRow db pid f) eid = findEvent db eid := rfl

/-- checkInFields preserves the primary key. -/
theorem checkInFields_id (m : String) (now : Nat) (p : Participant) :
    (checkInFields m now p).id = p.id := rfl

/-- checkInFields preserves the owning event. -/
theorem checkInFields_eventId (m : String) (now : Nat) (p : Participant) :
    (checkInFields m now p).eventId = p.eventId := rfl

/-- checkInFields marks the row as checked in. -/
theorem checkInFields_checkedIn (m : String) (now : Nat) (p : Participant) :
    (checkInFields m now p).checkedIn = true := rfl

/-- The bulk loop never touches the event table. -/
theorem bulkUpdateLoop_events (m : String) (now : Nat) :
    ∀ (l : List Participant) (db : DB), (bulkUpdateLoop m now db l).1.events = db.events := by
  intro l
  induction l with
  | nil => intro db; rfl
  | cons p t ih =>
    intro db
    cases hp : p.checkedIn with
    | true => simp only [bulkUpdateLoop, hp, if_true]; exact ih db
    | false =>
      simp only [bulkUpdateLoop, hp, Bool.false_eq_true, if_false]
      exact ih (updateParticipantRow db p.id (checkInFields m now))

/-- The list accumulated by the bulk loop is exactly the not-yet
checked-in participants, each with the check-in fields written. -/
theorem bulkUpdateLoop_snd (m : String) (now : Nat) :
    ∀ (l : List Participant) (db : DB),
      (bulkUpdateLoop m now db l).2
      = (l.filter (fun p => !p.checkedIn)).map (checkInFields m now) := by
  intro l
  induction l with
  | nil => intro db; rfl
  | cons p t ih =>
    intro db
    cases hp : p.checkedIn with
    | true =>
      simp only [bulkUpdateLoop, hp, if_true]
      rw [filter_cons_false (fun q => !q.checkedIn) p t
            (by show (!p.checkedIn) = false; rw [hp]; rfl)]
      exact ih db
    | false =>
      simp only [bulkUpdateLoop, hp, Bool.false_eq_true, if_false]
      rw [filter_cons_true (fun q => !q.checkedIn) p t
            (by show (!p.checkedIn) = true; rw [hp]; rfl), List.map_cons]
      rw [ih (updateParticipantRow db p.id (checkInFields m now))]

/-- The bulk loop only writes rows of not-yet checked-in iterated
participants; any other id is untouched. -/
theorem bulkUpdateLoop_find_not_mem (m : String) (now : Nat) :
    ∀ (l : List Participant) (db : DB) (pid : Nat),
      (∀ p ∈ l, p.checkedIn = false → p.id ≠ pid) →
      findParticipant (bulkUpdateLoop m now db l).1 pid = findParticipant db pid := by
  intro l
  induction l with
  | nil => intro db pid _; rfl
  | cons p t ih =>
    intro db pid hl
    have ht : ∀ q ∈ t, q.checkedIn = false → q.id ≠ pid :=
      fun q hq => hl q (List.mem_cons_of_mem p hq)
    cases hc : p.checkedIn with
    | true => simp only [bulkUpdateLoop, hc, if_true]; exact ih db pid ht
    | false =>
      have hp : p.id ≠ pid := hl p (List.mem_cons_self p t) hc
      simp only [bulkUpdateLoop, hc, Bool.false_eq_true, if_false]
      rw [ih (updateParticipantRow db p.id (checkInFields m now)) pid ht,
          findParticipant_update_other db p.id pid (checkInFields m now)
            (fun q => rfl) (Ne.symm hp)]

/-- The bulk loop rewrites the row of each not-yet checked-in iterated
participant exactly once. -/
theorem bulkUpdateLoop_find_mem (m : String) (now : Nat) :
    ∀ (l : List Participant) (db : DB) (p : Participant),
      (l.map Participant.id).Nodup → p ∈ l → p.checkedIn = false →
      findParticipant (bulkUpdateLoop m now db l).1 p.id
      = (findParticipant db p.id).map (checkInFields m now) := by
  intro l
  induction l with
  | nil => intro db p _ hp; cases hp
  | cons q t ih =>
    intro db p hnd hp hci
    rw [List.map_cons, List.nodup_cons] at hnd
    rcases List.mem_cons.mp hp with rfl | hpt
    · simp only [bulkUpdateLoop, hci, Bool.false_eq_true, if_false]
      have ht : ∀ r ∈ t, r.checkedIn = false → r.id ≠ p.id := by
        intro r hr _ hc
        exact hnd.1 (hc ▸ List.mem_map_of_mem Participant.id hr)
      rw [bulkUpdateLoop_find_not_mem m now t _ p.id ht,
          findParticipant_update_self db p.id (checkInFields m now) (fun r => rfl)]
    · have hqp : q.id ≠ p.id := by
        intro hc
        exact hnd.1 (hc ▸ List.mem_map_of_mem Participant.id hpt)
      cases hqc : q.checkedIn with
      | true =>
        simp only [bulkUpdateLoop, hqc, if_true]
        exact ih db p hnd.2 hpt hci
      | false =>
        simp only [bulkUpdateLoop, hqc, Bool.false_eq_true, if_false]
        rw [ih (updateParticipantRow db q.id (checkInFields m now)) p hnd.2 hpt hci,
            findParticipant_update_other db q.id p.id (checkInFields m now)
              (fun r => rfl) (Ne.symm hqp)]

/-- In a table with no duplicate keys, rows are determined by their
key. -/
theorem eq_of_key_eq_of_nodup {α : Type} (key : α → Nat) (l : List α)
    (h : (l.map key).Nodup) (p q : α) (hp : p ∈ l) (hq : q ∈ l)
    (heq : key q = key p) : q = p := by
  have h1 := find?_eq_self_of_nodup key l h p hp
  have h2 := find?_eq_self_of_nodup key l h q hq
  rw [heq, h1] at h2
  exact (Option.some_inj.mp h2).symm

/-- Splitting a list length by a Boolean predicate. -/
theorem length_filter_not_add {α : Type} (pred : α → Bool) (l : List α) :
    (l.filter (fun a => !(pred a))).length + (l.filter pred).length = l.length := by
  induction l with
  | nil => rfl
  | cons a t ih =>
    cases hp : pred a with
    | true =>
      rw [filter_cons_false (fun x => !(pred x)) a t
            (by show (!pred a) = false; rw [hp]; rfl),
          filter_cons_true pred a t hp]
      simp only [List.length_cons]
      omega
    | false =>
      rw [filter_cons_true (fun x => !(pred x)) a t
            (by show (!pred a) = true; rw [hp]; rfl),
          filter_cons_false pred a t hp]
      simp only [List.length_cons]
      omega

/-- When the participant table has no duplicate primary keys, the ids in
the request set are themselves distinct, and every requested id matches
a row, the fetched batch has exactly as many rows as there are requested
ids. -/
theorem length_filter_ids (ids : List Nat) (l : List Participant)
    (hids : ids.Nodup) (hl : (l.map Participant.id).Nodup)
    (hcov : ∀ i ∈ ids, ∃ p ∈ l, p.id = i) :
    (l.filter (fun p => ids.any (fun i => i == p.id))).length = ids.length := by
  have hsub : (l.filter (fun p => ids.any (fun i => i == p.id))).Sublist l :=
    List.filter_sublist l
  have hnodup : ((l.filter (fun p => ids.any (fun i => i == p.id))).map Participant.id).Nodup :=
    hl.sublist (hsub.map Participant.id)
  have hmem : ∀ a, a ∈ (l.filter (fun p => ids.any (fun i => i == p.id))).map Participant.id
      ↔ a ∈ ids := by
    intro a
    constructor
    · intro ha
      rcases List.mem_map.mp ha with ⟨p, hpmem, rfl⟩
      have hany := (List.mem_filter.mp hpmem).2
      rcases List.any_eq_true.mp hany with ⟨i, hi, hieq⟩
      have : i = p.id := by simpa using hieq
      exact this ▸ hi
    · intro ha
      rcases hcov a ha with ⟨p, hpl, rfl⟩
      refine List.mem_map_of_mem Participant.id (List.mem_filter.mpr ⟨hpl, ?_⟩)
      exact List.any_eq_true.mpr ⟨p.id, ha, by simp⟩
  have hperm : List.Perm ((l.filter (fun p => ids.any (fun i => i == p.id))).map Participant.id)
      ids :=
    (List.perm_ext_iff_of_nodup hnodup hids).mpr hmem
  have := hperm.length_eq
  simpa using this

/-- Every value below 16 renders to an uppercase hexadecimal digit. -/
theorem hexDigitUpper_isHex (n : Nat) (h : n < 16) :
    isHexUpperDigit (hexDigitUpper n) = true := by
  interval_cases n <;> rfl

/-- Two characters per byte. -/
theorem bytesToHexChars_length (bs : List Nat) :
    (bytesToHexChars bs).length = 2 * bs.length := by
  induction bs with
  | nil => rfl
  | cons b t ih =>
    simp only [bytesToHexChars, List.length_cons, ih]
    omega

/-- Every character of the rendering of a byte list is an uppercase
hexadecimal digit. -/
theorem bytesToHexChars_all_hex (bs : List Nat) (h : ∀ b ∈ bs, b < 256) :
    (bytesToHexChars bs).all isHexUpperDigit = true := by
  induction bs with
  | nil => rfl
  | cons b t ih =>
    have hb : b < 256 := h b (List.mem_cons_self b t)
    have hdiv : b / 16 < 16 := by omega
    have hmod : b % 16 < 16 := Nat.mod_lt _ (by norm_num)
    simp only [bytesToHexChars, List.all_cons,
      hexDigitUpper_isHex _ hdiv, hexDigitUpper_isHex _ hmod, Bool.true_and]
    exact ih (fun x hx => h x (List.mem_cons_of_mem b hx))

/-- The generated ticket string always matches the ticket pattern when
the random source delivers four bytes. -/
theorem ticket_format (bs : List Nat) (hlen : bs.length = 4) (h : ∀ b ∈ bs, b < 256) :
    isTicketFormat ("TKT-" ++ bytesToHexUpper bs) = true := by
  have hdata : ("TKT-" ++ bytesToHexUpper bs).toList
      = 'T' :: 'K' :: 'T' :: '-' :: bytesToHexChars bs := rfl
  unfold isTicketFormat
  rw [hdata]
  simp only [bytesToHexChars_length, hlen, bytesToHexChars_all_hex bs h, Bool.and_true]
  rfl

/-- Claim C1 (amended): for every registration attempt on a published
event whose capacity is set to a nonzero value and whose
totalRegistrations equals that capacity, registerParticipant fails with
status 400 and the message Event is at full capacity, and the store is
unchanged: totalRegistrations keeps its value and no Participant row is
created. -/
theorem register_capacity_full_rejected (db : DB) (eid : Nat) (e : Event)
    (body : RegBody) (bytes : List Nat) (newId now : Nat) (ef : Bool) (c : Int)
    (he : findEvent db eid = some e) (hs : e.status = "published")
    (hc : e.capacity = some c) (hc0 : c ≠ 0) (ht : e.totalRegistrations = c) :
    registerParticipant db eid body bytes newId now ef
      = (.err 400 "Event is at full capacity", db) := by
  have hfull : capacityFull e = true := by
    unfold capacityFull capTruthy
    rw [hc, ht]
    simp [hc0]
  unfold registerParticipant
  rw [he]
  simp [hs, hfull]

/-- Witness for claim C1: a concrete published event with capacity 2 and
two registrations rejects a third registration and is left unchanged. -/
theorem register_capacity_full_rejected_witness :
    registerParticipant dbFull 1 bodyA [0, 0, 0, 0] 10 5 false
      = (.err 400 "Event is at full capacity", dbFull) :=
  register_capacity_full_rejected dbFull 1 evFull bodyA [0, 0, 0, 0] 10 5 false 2
    rfl rfl rfl (by decide) rfl

/-- Counterexample to claim C1 as stated: on an event whose capacity is
set to 0 and whose totalRegistrations equals that capacity, the
registration does not fail with the capacity error; it succeeds, a
Participant row is created, and totalRegistrations becomes 1.  The
capacity guard of the source tests JavaScript truthiness of
event.capacity, and 0 is falsy. -/
theorem register_capacity_zero_not_blocked :
    evZero.capacity = some 0 ∧ evZero.totalRegistrations = 0 ∧
    (registerParticipant dbZero 1 bodyA [0, 0, 0, 0] 10 5 false).1
      ≠ Resp.err 400 "Event is at full capacity" ∧
    (registerParticipant dbZero 1 bodyA [0, 0, 0, 0] 10 5 false).2 ≠ dbZero ∧
    findEvent (registerParticipant dbZero 1 bodyA [0, 0, 0, 0] 10 5 false).2 1
      = some { evZero with totalRegistrations := 1 } := by
  refine ⟨rfl, rfl, ?_, ?_, ?_⟩ <;> decide

/-- Claim C2 (amended): registerParticipant checks its preconditions in
this exact order, each producing a distinct failure and short-circuiting
the rest: (1) the event exists, else 404 Event not found; (2) the event
status equals published, else 400 not open for registration; (3) if
capacity is set and nonzero, totalRegistrations must be below capacity,
else 400 full capacity; (4) no existing participant with the same
eventId and email, else 400 already registered.  Each implication below
makes no assumption on the later checks, so for an input violating
several preconditions the failure returned is the earliest in this
order. -/
theorem register_check_order (db : DB) (eid : Nat) (body : RegBody)
    (bytes : List Nat) (newId now : Nat) (ef : Bool) :
    (findEvent db eid = none →
      registerParticipant db eid body bytes newId now ef
        = (.err 404 "Event not found", db))
    ∧ (∀ e, findEvent db eid = some e → e.status ≠ "published" →
      registerParticipant db eid body bytes newId now ef
        = (.err 400 "Event is not open for registration", db))
    ∧ (∀ e c, findEvent db eid = some e → e.status = "published" →
      e.capacity = some c → c ≠ 0 → c ≤ e.totalRegistrations →
      registerParticipant db eid body bytes newId now ef
        = (.err 400 "Event is at full capacity", db))
    ∧ (∀ e, findEvent db eid = some e → e.status = "published" →
      capacityFull e = false →
      db.participants.any (fun p => p.eventId == eid && p.email == body.email) = true →
      registerParticipant db eid body bytes newId now ef
        = (.err 400 "Already registered for this event", db)) := by
  refine ⟨?_, ?_, ?_, ?_⟩
  · intro he
    unfold registerParticipant
    rw [he]
  · intro e he hs
    unfold registerParticipant
    rw [he]
    simp [hs]
  · intro e c he hs hc hc0 hle
    have hfull : capacityFull e = true := by
      unfold capacityFull capTruthy
      rw [hc]
      simp [hc0, hle]
    unfold registerParticipant
    rw [he]
    simp [hs, hfull]
  · intro e he hs hfull hdup
    unfold registerParticipant
    rw [he]
    simp [hs, hfull, hdup]

/-- Witness for claim C2: the four orderings at concrete stores: a
missing event, a draft event, a full event with a duplicate registration
also present (the capacity failure wins), and an open event with a
duplicate registration. -/
theorem register_check_order_witness :
    registerParticipant { events := [], participants := [] } 1 bodyA [0, 0, 0, 0] 10 5 false
      = (.err 404 "Event not found", { events := [], participants := [] })
    ∧ registerParticipant { events := [{ evFull with status := "draft" }], participants := [pDup] }
        1 bodyA [0, 0, 0, 0] 10 5 false
      = (.err 400 "Event is not open for registration",
         { events := [{ evFull with status := "draft" }], participants := [pDup] })
    ∧ registerParticipant { events := [evFull], participants := [pDup] } 1 bodyA
        [0, 0, 0, 0] 10 5 false
      = (.err 400 "Event is at full capacity",
         { events := [evFull], participants := [pDup] })
    ∧ registerParticipant dbReg 1 bodyA [0, 0, 0, 0] 10 5 false
      = (.err 400 "Already registered for this event", dbReg) :=
  ⟨(register_check_order _ 1 bodyA [0, 0, 0, 0] 10 5 false).1 rfl,
   (register_check_order _ 1 bodyA [0, 0, 0, 0] 10 5 false).2.1 _ rfl (by decide),
   (register_check_order _ 1 bodyA [0, 0, 0, 0] 10 5 false).2.2.1 _ 2 rfl rfl rfl
     (by decide) (by decide),
   (register_check_order _ 1 bodyA [0, 0, 0, 0] 10 5 false).2.2.2 _ rfl rfl
     (by decide) (by decide)⟩

/-- Counterexample to claim C2 as stated: check (3) as written says a
set capacity with totalRegistrations not below it fails with the
capacity error before the duplicate check is reached, yet on an event
with capacity set to 0 the source skips the capacity guard (0 is falsy)
and returns the later duplicate failure instead. -/
theorem register_check_order_cex :
    evZero.capacity = some 0 ∧ ¬ (evZero.totalRegistrations < 0) ∧
    evZero.status = "published" ∧
    (registerParticipant dbZeroDup 1 bodyA [0, 0, 0, 0] 10 5 false).1
      = Resp.err 400 "Already registered for this event" ∧
    (registerParticipant dbZeroDup 1 bodyA [0, 0, 0, 0] 10 5 false).1
      ≠ Resp.err 400 "Event is at full capacity" := by
  refine ⟨rfl, by decide, rfl, ?_, ?_⟩ <;> decide

/-- Claim C3: every list, get-by-id, update, delete, single check-in or
bulk check-in request whose caller is neither the owning event organizer
(req.user.id differs from event.organizerId) nor an admin returns 403
Access denied and leaves the store, hence every Participant row and
every Event counter, unchanged.  For bulk check-in the owning event is
the event of the first fetched participant, the only one the source
consults. -/
theorem auth_denied_no_mutation (db : DB) (user : User) :
    (∀ eid e q, findEvent db eid = some e → deniedB e user = true →
      getEventParticipants db eid q user = (.err 403 "Access denied", db))
    ∧ (∀ pid p e, findParticipant db pid = some p →
      findEvent db p.eventId = some e → deniedB e user = true →
      getParticipantById db pid user = (.err 403 "Access denied", db))
    ∧ (∀ pid p e b, findParticipant db pid = some p →
      findEvent db p.eventId = some e → deniedB e user = true →
      updateParticipant db pid b user = (.err 403 "Access denied", db))
    ∧ (∀ pid p e, findParticipant db pid = some p →
      findEvent db p.eventId = some e → deniedB e user = true →
      deleteParticipant db pid user = (.err 403 "Access denied", db))
    ∧ (∀ pid p e m now, findParticipant db pid = some p →
      findEvent db p.eventId = some e → deniedB e user = true →
      checkInParticipant db pid m user now = (.err 403 "Access denied", db))
    ∧ (∀ ids first rest e m now,
      db.participants.filter (fun p => ids.any (fun i => i == p.id)) = first :: rest →
      findEvent db first.eventId = some e → deniedB e user = true →
      bulkCheckIn db (some ids) m user now = (.err 403 "Access denied", db)) := by
  refine ⟨?_, ?_, ?_, ?_, ?_, ?_⟩
  · intro eid e q he hd
    unfold getEventParticipants
    simp [he, hd]
  · intro pid p e hp he hd
    unfold getParticipantById
    simp [hp, he, hd]
  · intro pid p e b hp he hd
    unfold updateParticipant
    simp [hp, he, hd]
  · intro pid p e hp he hd
    unfold deleteParticipant
    simp [hp, he, hd]
  · intro pid p e m now hp he hd
    unfold checkInParticipant
    simp [hp, he, hd]
  · intro ids first rest e m now hfil he hd
    unfold bulkCheckIn
    simp [hfil, he, hd]

/-- Witness for claim C3: a caller with id 8 and role user on the store
of event 1 (organizer 7) is rejected with 403 by all six operations and
the store is returned unchanged. -/
theorem auth_denied_no_mutation_witness :
    getEventParticipants dbBulk 1 {} stranger8 = (.err 403 "Access denied", dbBulk)
    ∧ getParticipantById dbBulk 1 stranger8 = (.err 403 "Access denied", dbBulk)
    ∧ updateParticipant dbBulk 1 {} stranger8 = (.err 403 "Access denied", dbBulk)
    ∧ deleteParticipant dbBulk 1 stranger8 = (.err 403 "Access denied", dbBulk)
    ∧ checkInParticipant dbBulk 1 none stranger8 9 = (.err 403 "Access denied", dbBulk)
    ∧ bulkCheckIn dbBulk (some [1, 2]) none stranger8 9
      = (.err 403 "Access denied", dbBulk) :=
  ⟨(auth_denied_no_mutation dbBulk stranger8).1 1 evOpen {} rfl (by decide),
   (auth_denied_no_mutation dbBulk stranger8).2.1 1 pB1 evOpen rfl rfl (by decide),
   (auth_denied_no_mutation dbBulk stranger8).2.2.1 1 pB1 evOpen {} rfl rfl (by decide),
   (auth_denied_no_mutation dbBulk stranger8).2.2.2.1 1 pB1 evOpen rfl rfl (by decide),
   (auth_denied_no_mutation dbBulk stranger8).2.2.2.2.1 1 pB1 evOpen none 9 rfl rfl
     (by decide),
   (auth_denied_no_mutation dbBulk stranger8).2.2.2.2.2 [1, 2] pB1 [pB2] evOpen none 9
     rfl rfl (by decide)⟩

/-- Claim C4: every participant created by a successful registration has
status registered when the event requiresApproval flag is true and
confirmed otherwise, and its ticketNumber matches the pattern TKT-
followed by exactly eight uppercase hexadecimal characters, provided the
random source delivered four bytes. -/
theorem register_success_fields (db : DB) (eid : Nat) (e : Event) (body : RegBody)
    (bytes : List Nat) (newId now : Nat) (ef : Bool) (code : Nat) (p : Participant)
    (db' : DB)
    (hbytes : bytes.length = 4) (hlt : ∀ b ∈ bytes, b < 256)
    (he : findEvent db eid = some e)
    (hsucc : registerParticipant db eid body bytes newId now ef = (.ok code p, db')) :
    p.status = (if e.requiresApproval then "registered" else "confirmed")
    ∧ isTicketFormat p.ticketNumber = true := by
  unfold registerParticipant at hsucc
  rw [he] at hsucc
  by_cases hs : e.status = "published"
  · simp only [hs, ne_eq, not_true_eq_false, if_false] at hsucc
    by_cases hcap : capacityFull e = true
    · simp [hcap] at hsucc
    · simp only [Bool.not_eq_true] at hcap
      simp only [hcap, Bool.false_eq_true, if_false] at hsucc
      by_cases hdup : db.participants.any
          (fun q => q.eventId == eid && q.email == body.email) = true
      · simp [hdup] at hsucc
      · simp only [Bool.not_eq_true] at hdup
        simp only [hdup, Bool.false_eq_true, if_false] at hsucc
        cases ef with
        | true => simp at hsucc
        | false =>
          simp only [Bool.false_eq_true, if_false] at hsucc
          rw [Prod.mk.injEq] at hsucc
          obtain ⟨hr, _⟩ := hsucc
          rw [Resp.ok.injEq] at hr
          obtain ⟨_, hpeq⟩ := hr
          subst hpeq
          exact ⟨rfl, ticket_format bytes hbytes hlt⟩
  · simp [hs] at hsucc

/-- Witness for claim C4: a concrete successful registration on an event
not requiring approval yields status confirmed and a well-formed ticket
number. -/
theorem register_success_fields_witness :
    (spreadCreate bodyA 1 ("TKT-" ++ bytesToHexUpper [0, 171, 255, 16]) "confirmed" 10 5).status
      = (if evOpen.requiresApproval then "registered" else "confirmed")
    ∧ isTicketFormat (spreadCreate bodyA 1
        ("TKT-" ++ bytesToHexUpper [0, 171, 255, 16]) "confirmed" 10 5).ticketNumber
      = true :=
  register_success_fields dbOpen 1 evOpen bodyA [0, 171, 255, 16] 10 5 false 201 _
    (registerParticipant dbOpen 1 bodyA [0, 171, 255, 16] 10 5 false).2
    rfl (by decide) rfl rfl

/-- Claim C5: for a participant not yet checked in, an authorized first
check-in call succeeds, writing checkedIn, checkInTime, checkInMethod
and status attended to the row and incrementing the event counter
totalAttendees by one, and a second check-in call on the same
participant returns 400 already checked in with the store unchanged, so
the two consecutive calls increment totalAttendees by exactly one in
total. -/
theorem checkin_first_ok_second_conflict (db : DB) (pid : Nat) (p : Participant)
    (e : Event) (user : User) (m m2 : Option String) (now now2 : Nat)
    (hp : findParticipant db pid = some p)
    (he : findEvent db p.eventId = some e)
    (hauth : deniedB e user = false)
    (hci : p.checkedIn = false) :
    (checkInParticipant db pid m user now).1
      = .ok 200 (checkInFields (m.getD "manual") now p)
    ∧ findParticipant (checkInParticipant db pid m user now).2 pid
      = some (checkInFields (m.getD "manual") now p)
    ∧ findEvent (checkInParticipant db pid m user now).2 p.eventId
      = some { e with totalAttendees := e.totalAttendees + 1 }
    ∧ checkInParticipant (checkInParticipant db pid m user now).2 pid m2 user now2
      = (.err 400 "Participant already checked in",
         (checkInParticipant db pid m user now).2) := by
  have hid : e.id = p.eventId := by simpa using List.find?_some he
  have h1 : checkInParticipant db pid m user now
      = (.ok 200 (checkInFields (m.getD "manual") now p),
         updateEvent (updateParticipantRow db pid (checkInFields (m.getD "manual") now))
           e.id (fun ev => { ev with totalAttendees := ev.totalAttendees + 1 })) := by
    unfold checkInParticipant
    simp [hp, he, hauth, hci]
  have hfp : findParticipant (checkInParticipant db pid m user now).2 pid
      = some (checkInFields (m.getD "manual") now p) := by
    rw [h1]
    show findParticipant (updateEvent _ _ _) pid = _
    rw [findParticipant_updateEvent,
        findParticipant_update_self db pid (checkInFields (m.getD "manual") now)
          (fun r => rfl), hp]
    rfl
  have hfe : findEvent (checkInParticipant db pid m user now).2 p.eventId
      = some { e with totalAttendees := e.totalAttendees + 1 } := by
    rw [h1]
    show findEvent (updateEvent (updateParticipantRow db pid _) e.id _) p.eventId = _
    have he' : findEvent db e.id = some e := by rw [hid]; exact he
    rw [← hid,
        findEvent_updateEvent_self _ e.id
          (fun ev => { ev with totalAttendees := ev.totalAttendees + 1 }) (fun ev => rfl),
        findEvent_updateParticipantRow, he']
    rfl
  have hd2 : deniedB { e with totalAttendees := e.totalAttendees + 1 } user = false := hauth
  refine ⟨by rw [h1], hfp, hfe, ?_⟩
  generalize hdb1 : (checkInParticipant db pid m user now).2 = db1 at hfp hfe
  unfold checkInParticipant
  simp only [hfp, checkInFields_eventId, hfe, hd2, checkInFields_checkedIn,
    Bool.false_eq_true, if_false, if_true]

/-- Witness for claim C5: the organizer checks in participant 3 of the
concrete store; the first call succeeds and bumps totalAttendees to 1,
the second call returns the conflict and changes nothing. -/
theorem checkin_first_ok_second_conflict_witness :
    (checkInParticipant dbReg 3 none organizer7 9).1
      = Resp.ok 200 (checkInFields "manual" 9 pDup)
    ∧ findParticipant (checkInParticipant dbReg 3 none organizer7 9).2 3
      = some (checkInFields "manual" 9 pDup)
    ∧ findEvent (checkInParticipant dbReg 3 none organizer7 9).2 pDup.eventId
      = some { evOpen with totalAttendees := evOpen.totalAttendees + 1 }
    ∧ checkInParticipant (checkInParticipant dbReg 3 none organizer7 9).2 3
        (some "qr") organizer7 11
      = (.err 400 "Participant already checked in",
         (checkInParticipant dbReg 3 none organizer7 9).2) :=
  checkin_first_ok_second_conflict dbReg 3 pDup evOpen organizer7 none (some "qr") 9 11
    rfl rfl rfl rfl

/-- Claim C7: an authorized delete of an existing participant removes
the row (a subsequent lookup and a subsequent get-by-id return nothing
and 404), decrements the owning event totalRegistrations by exactly 1
while leaving its other fields unchanged, and leaves every other
participant row and every other event row unchanged. -/
theorem delete_removes_row_decrements (db : DB) (pid : Nat) (p : Participant)
    (e : Event) (user u2 : User)
    (hp : findParticipant db pid = some p)
    (he : findEvent db p.eventId = some e)
    (hauth : deniedB e user = false) :
    (deleteParticipant db pid user).1 = .ok 200 "Participant deleted successfully"
    ∧ findParticipant (deleteParticipant db pid user).2 pid = none
    ∧ (getParticipantById (deleteParticipant db pid user).2 pid u2).1
      = .err 404 "Participant not found"
    ∧ findEvent (deleteParticipant db pid user).2 p.eventId
      = some { e with totalRegistrations := e.totalRegistrations - 1 }
    ∧ (∀ qid, qid ≠ pid →
      findParticipant (deleteParticipant db pid user).2 qid = findParticipant db qid)
    ∧ (∀ tid, tid ≠ p.eventId →
      findEvent (deleteParticipant db pid user).2 tid = findEvent db tid) := by
  have hid : e.id = p.eventId := by simpa using List.find?_some he
  have h1 : deleteParticipant db pid user
      = (.ok 200 "Participant deleted successfully",
         updateEvent
           { db with participants := db.participants.filter (fun q => !(q.id == pid)) }
           e.id (fun ev => { ev with totalRegistrations := ev.totalRegistrations - 1 })) := by
    unfold deleteParticipant
    simp [hp, he, hauth]
  have hgone : findParticipant (deleteParticipant db pid user).2 pid = none := by
    rw [h1]
    show findParticipant (updateEvent _ _ _) pid = none
    rw [findParticipant_updateEvent]
    exact find?_filter_self Participant.id pid db.participants
  refine ⟨by rw [h1], hgone, ?_, ?_, ?_, ?_⟩
  · unfold getParticipantById
    simp only [hgone]
  · rw [h1]
    show findEvent (updateEvent _ _ _) p.eventId = _
    have he' : findEvent { db with
        participants := db.participants.filter (fun q => !(q.id == pid)) } e.id
        = some e := by
      show findEvent db e.id = some e
      rw [hid]
      exact he
    rw [← hid,
        findEvent_updateEvent_self _ e.id
          (fun ev => { ev with totalRegistrations := ev.totalRegistrations - 1 })
          (fun ev => rfl),
        he']
    rfl
  · intro qid hq
    rw [h1]
    show findParticipant (updateEvent _ _ _) qid = _
    rw [findParticipant_updateEvent]
    exact find?_filter_ne Participant.id pid qid hq db.participants
  · intro tid ht
    rw [h1]
    show findEvent (updateEvent _ _ _) tid = _
    rw [findEvent_updateEvent_other _ e.id tid
          (fun ev => { ev with totalRegistrations := ev.totalRegistrations - 1 })
          (fun ev => rfl) (hid ▸ ht)]
    rfl

/-- Witness for claim C7: deleting participant 3 from the concrete store
removes the row, a get then returns 404, totalRegistrations drops from 1
to 0, and an unrelated id and event are untouched. -/
theorem delete_removes_row_decrements_witness :
    (deleteParticipant dbReg 3 organizer7).1 = .ok 200 "Participant deleted successfully"
    ∧ findParticipant (deleteParticipant dbReg 3 organizer7).2 3 = none
    ∧ (getParticipantById (deleteParticipant dbReg 3 organizer7).2 3 stranger8).1
      = .err 404 "Participant not found"
    ∧ findEvent (deleteParticipant dbReg 3 organizer7).2 pDup.eventId
      = some { evOpen with totalRegistrations := evOpen.totalRegistrations - 1 }
    ∧ findParticipant (deleteParticipant dbReg 3 organizer7).2 4 = findParticipant dbReg 4
    ∧ findEvent (deleteParticipant dbReg 3 organizer7).2 99 = findEvent dbReg 99 := by
  have h := delete_removes_row_decrements dbReg 3 pDup evOpen organizer7 stranger8
    rfl rfl rfl
  exact ⟨h.1, h.2.1, h.2.2.1, h.2.2.2.1, h.2.2.2.2.1 4 (by decide),
    h.2.2.2.2.2 99 (by decide)⟩

/-- Claim C9: for get-by-id, update, delete and single check-in, when
the participant row exists but its owning event row does not, the
operation does not return 404; the source dereferences organizerId on a
null event, the TypeError is caught by the outer handler, and the caller
receives the generic 500 failure with the store unchanged. -/
theorem missing_event_internal (db : DB) (user : User) :
    (∀ pid p, findParticipant db pid = some p → findEvent db p.eventId = none →
      getParticipantById db pid user = (.err 500 "Failed to fetch participant", db))
    ∧ (∀ pid p b, findParticipant db pid = some p → findEvent db p.eventId = none →
      updateParticipant db pid b user = (.err 500 "Failed to update participant", db))
    ∧ (∀ pid p, findParticipant db pid = some p → findEvent db p.eventId = none →
      deleteParticipant db pid user = (.err 500 "Failed to delete participant", db))
    ∧ (∀ pid p m now, findParticipant db pid = some p → findEvent db p.eventId = none →
      checkInParticipant db pid m user now
        = (.err 500 "Failed to check in participant", db)) := by
  refine ⟨?_, ?_, ?_, ?_⟩
  · intro pid p hp he
    unfold getParticipantById
    simp [hp, he]
  · intro pid p b hp he
    unfold updateParticipant
    simp [hp, he]
  · intro pid p hp he
    unfold deleteParticipant
    simp [hp, he]
  · intro pid p m now hp he
    unfold checkInParticipant
    simp [hp, he]

/-- Witness for claim C9: participant 4 references event 99 which does
not exist; all four operations answer with their generic 500 and leave
the store unchanged. -/
theorem missing_event_internal_witness :
    getParticipantById dbOrphan 4 organizer7
      = (.err 500 "Failed to fetch participant", dbOrphan)
    ∧ updateParticipant dbOrphan 4 {} organizer7
      = (.err 500 "Failed to update participant", dbOrphan)
    ∧ deleteParticipant dbOrphan 4 organizer7
      = (.err 500 "Failed to delete participant", dbOrphan)
    ∧ checkInParticipant dbOrphan 4 none organizer7 9
      = (.err 500 "Failed to check in participant", dbOrphan) :=
  ⟨(missing_event_internal dbOrphan organizer7).1 4 pOrphan rfl rfl,
   (missing_event_internal dbOrphan organizer7).2.1 4 pOrphan {} rfl rfl,
   (missing_event_internal dbOrphan organizer7).2.2.1 4 pOrphan rfl rfl,
   (missing_event_internal dbOrphan organizer7).2.2.2 4 pOrphan none 9 rfl rfl⟩

/-- Claim C8: when the notification enqueue step of registration throws,
the registration is not rolled back: the response is the generic 500
instead of the success response, yet the resulting store is exactly the
one of a successful registration, with the created Participant row
present and totalRegistrations incremented by 1. -/
theorem register_enqueue_failure_persists (db : DB) (eid : Nat) (e : Event)
    (body : RegBody) (bytes : List Nat) (newId now : Nat)
    (he : findEvent db eid = some e) (hs : e.status = "published")
    (hcap : capacityFull e = false)
    (hdup : db.participants.any (fun q => q.eventId == eid && q.email == body.email)
      = false)
    (hfresh : findParticipant db newId = none) :
    (registerParticipant db eid body bytes newId now true).1
      = .err 500 "Failed to register participant"
    ∧ (registerParticipant db eid body bytes newId now true).2
      = (registerParticipant db eid body bytes newId now false).2
    ∧ findParticipant (registerParticipant db eid body bytes newId now true).2 newId
      = some (spreadCreate body eid ("TKT-" ++ bytesToHexUpper bytes)
          (if e.requiresApproval then "registered" else "confirmed") newId now)
    ∧ findEvent (registerParticipant db eid body bytes newId now true).2 eid
      = some { e with totalRegistrations := e.totalRegistrations + 1 } := by
  have hid : e.id = eid := by simpa using List.find?_some he
  subst hid
  have h1 : registerParticipant db e.id body bytes newId now true
      = (.err 500 "Failed to register participant",
         updateEvent
           { db with participants := db.participants
              ++ [spreadCreate body e.id ("TKT-" ++ bytesToHexUpper bytes)
                    (if e.requiresApproval then "registered" else "confirmed") newId now] }
           e.id (fun ev => { ev with totalRegistrations := ev.totalRegistrations + 1 })) := by
    unfold registerParticipant
    simp [he, hs, hcap, hdup]
  have h0 : registerParticipant db e.id body bytes newId now false
      = (.ok 201 (spreadCreate body e.id ("TKT-" ++ bytesToHexUpper bytes)
            (if e.requiresApproval then "registered" else "confirmed") newId now),
         updateEvent
           { db with participants := db.participants
              ++ [spreadCreate body e.id ("TKT-" ++ bytesToHexUpper bytes)
                    (if e.requiresApproval then "registered" else "confirmed") newId now] }
           e.id (fun ev => { ev with totalRegistrations := ev.totalRegistrations + 1 })) := by
    unfold registerParticipant
    simp [he, hs, hcap, hdup]
  refine ⟨by rw [h1], by rw [h1, h0], ?_, ?_⟩
  · rw [h1]
    show findParticipant (updateEvent _ _ _) newId = _
    rw [findParticipant_updateEvent]
    have hfresh' : db.participants.find? (fun q => q.id == newId) = none := hfresh
    show (db.participants ++ [_]).find? _ = _
    rw [List.find?_append, hfresh', Option.none_or]
    exact find?_cons_true _ _ _ (by simp [spreadCreate])
  · rw [h1]
    show findEvent (updateEvent _ _ _) e.id = _
    rw [findEvent_updateEvent_self _ e.id
          (fun ev => { ev with totalRegistrations := ev.totalRegistrations + 1 })
          (fun ev => rfl)]
    show Option.map _ (findEvent db e.id) = _
    rw [he]
    rfl

/-- Witness for claim C8: a registration on the concrete open store with
a throwing enqueue returns 500, while the row with the fresh id 10 is
present afterwards and totalRegistrations moved from 1 to 2 exactly as
in the successful run. -/
theorem register_enqueue_failure_persists_witness :
    (registerParticipant dbOpen 1 bodyA [0, 0, 0, 0] 10 5 true).1
      = .err 500 "Failed to register participant"
    ∧ (registerParticipant dbOpen 1 bodyA [0, 0, 0, 0] 10 5 true).2
      = (registerParticipant dbOpen 1 bodyA [0, 0, 0, 0] 10 5 false).2
    ∧ findParticipant (registerParticipant dbOpen 1 bodyA [0, 0, 0, 0] 10 5 true).2 10
      = some (spreadCreate bodyA 1 ("TKT-" ++ bytesToHexUpper [0, 0, 0, 0])
          (if evOpen.requiresApproval then "registered" else "confirmed") 10 5)
    ∧ findEvent (registerParticipant dbOpen 1 bodyA [0, 0, 0, 0] 10 5 true).2 1
      = some { evOpen with totalRegistrations := evOpen.totalRegistrations + 1 } :=
  register_enqueue_failure_persists dbOpen 1 evOpen bodyA [0, 0, 0, 0] 10 5
    rfl rfl (by decide) (by decide) rfl

/-- Claim C10: the eventId, ticketNumber and status of a participant
created by registration are independent of any values supplied for
those keys in the request body: two bodies differing only in those keys
produce identical results (the server-set fields are spread after the
body), and on success the created participant carries the path
parameter as eventId, the generated ticket number, and the status
determined by requiresApproval. -/
theorem register_body_overrides_ignored (db : DB) (eid : Nat) (b1 b2 : RegBody)
    (bytes : List Nat) (newId now : Nat) (ef : Bool)
    (hf : b1.firstName = b2.firstName) (hl : b1.lastName = b2.lastName)
    (hm : b1.email = b2.email) :
    registerParticipant db eid b1 bytes newId now ef
      = registerParticipant db eid b2 bytes newId now ef
    ∧ (∀ e code p db2, findEvent db eid = some e →
      registerParticipant db eid b1 bytes newId now ef = (.ok code p, db2) →
      p.eventId = eid ∧ p.ticketNumber = "TKT-" ++ bytesToHexUpper bytes
        ∧ p.status = (if e.requiresApproval then "registered" else "confirmed")) := by
  constructor
  · obtain ⟨f1, l1, m1, ev1, t1, s1⟩ := b1
    obtain ⟨f2, l2, m2, ev2, t2, s2⟩ := b2
    change f1 = f2 at hf
    change l1 = l2 at hl
    change m1 = m2 at hm
    subst hf
    subst hl
    subst hm
    rfl
  · intro e code p db2 hev hsucc
    unfold registerParticipant at hsucc
    rw [hev] at hsucc
    by_cases hs : e.status = "published"
    · simp only [hs, ne_eq, not_true_eq_false, if_false] at hsucc
      by_cases hcap : capacityFull e = true
      · simp [hcap] at hsucc
      · simp only [Bool.not_eq_true] at hcap
        simp only [hcap, Bool.false_eq_true, if_false] at hsucc
        by_cases hdup : db.participants.any
            (fun q => q.eventId == eid && q.email == b1.email) = true
        · simp [hdup] at hsucc
        · simp only [Bool.not_eq_true] at hdup
          simp only [hdup, Bool.false_eq_true, if_false] at hsucc
          cases ef with
          | true => simp at hsucc
          | false =>
            simp only [Bool.false_eq_true, if_false] at hsucc
            rw [Prod.mk.injEq] at hsucc
            obtain ⟨hr, _⟩ := hsucc
            rw [Resp.ok.injEq] at hr
            obtain ⟨_, hpeq⟩ := hr
            subst hpeq
            exact ⟨rfl, rfl, rfl⟩
    · simp [hs] at hsucc

/-- Witness for claim C10: the body that also smuggles eventId 42, a
forged ticket number and status attended produces exactly the same
result as the plain body, and the created row keeps the path event 1,
the generated ticket and status confirmed. -/
theorem register_body_overrides_ignored_witness :
    registerParticipant dbOpen 1 bodyA [0, 0, 0, 0] 10 5 false
      = registerParticipant dbOpen 1 bodyB [0, 0, 0, 0] 10 5 false
    ∧ (spreadCreate bodyA 1 ("TKT-" ++ bytesToHexUpper [0, 0, 0, 0]) "confirmed" 10 5).eventId
      = 1
    ∧ (spreadCreate bodyA 1 ("TKT-" ++ bytesToHexUpper [0, 0, 0, 0]) "confirmed" 10 5).ticketNumber
      = "TKT-" ++ bytesToHexUpper [0, 0, 0, 0]
    ∧ (spreadCreate bodyA 1 ("TKT-" ++ bytesToHexUpper [0, 0, 0, 0]) "confirmed" 10 5).status
      = "confirmed" := by
  have h := register_body_overrides_ignored dbOpen 1 bodyA bodyB [0, 0, 0, 0] 10 5 false
    rfl rfl rfl
  have h2 := h.2 evOpen 201
    (spreadCreate bodyA 1 ("TKT-" ++ bytesToHexUpper [0, 0, 0, 0]) "confirmed" 10 5)
    (registerParticipant dbOpen 1 bodyA [0, 0, 0, 0] 10 5 false).2 rfl rfl
  exact ⟨h.1, h2.1, h2.2.1, h2.2.2⟩

/-- Claim C6: an authorized bulk check-in over a set of N distinct ids
that all match existing participants, of which K are already checked in,
returns success with an updated list of size N minus K, updates each of
the N minus K not-yet checked-in participants exactly as single
check-in does, silently leaves the K already checked-in rows untouched
with no error, and increments totalAttendees of the event of the first
fetched participant by exactly N minus K in one batched increment. -/
theorem bulk_checkin_counts (db : DB) (ids : List Nat) (user : User)
    (m : Option String) (now : Nat) (e : Event) (first : Participant)
    (rest : List Participant)
    (hids : ids.Nodup)
    (hnd : (db.participants.map Participant.id).Nodup)
    (hcov : ∀ i ∈ ids, ∃ p ∈ db.participants, p.id = i)
    (hfil : db.participants.filter (fun p => ids.any (fun i => i == p.id)) = first :: rest)
    (he : findEvent db first.eventId = some e)
    (hauth : deniedB e user = false) :
    (bulkCheckIn db (some ids) m user now).1
      = .ok 200 (((first :: rest).filter (fun p => !p.checkedIn)).map
          (checkInFields (m.getD "manual") now))
    ∧ (((first :: rest).filter (fun p => !p.checkedIn)).map
        (checkInFields (m.getD "manual") now)).length
      = ids.length - ((first :: rest).filter (fun p => p.checkedIn)).length
    ∧ ((first :: rest).filter (fun p => p.checkedIn)).length ≤ ids.length
    ∧ findEvent (bulkCheckIn db (some ids) m user now).2 e.id
      = some { e with totalAttendees := e.totalAttendees
          + (((first :: rest).filter (fun p => !p.checkedIn)).map
              (checkInFields (m.getD "manual") now)).length }
    ∧ (∀ p ∈ first :: rest, p.checkedIn = false →
      findParticipant (bulkCheckIn db (some ids) m user now).2 p.id
        = some (checkInFields (m.getD "manual") now p))
    ∧ (∀ p ∈ first :: rest, p.checkedIn = true →
      findParticipant (bulkCheckIn db (some ids) m user now).2 p.id = some p) := by
  have hid : e.id = first.eventId := by simpa using List.find?_some he
  have hmatchednd : ((first :: rest).map Participant.id).Nodup := by
    rw [← hfil]
    exact hnd.sublist ((List.filter_sublist _).map _)
  have hsub : ∀ p ∈ first :: rest, p ∈ db.participants := by
    intro p hp
    rw [← hfil] at hp
    exact List.mem_of_mem_filter hp
  have hlen : (first :: rest).length = ids.length := by
    rw [← hfil]
    exact length_filter_ids ids db.participants hids hnd hcov
  have hsplit := length_filter_not_add (fun p : Participant => p.checkedIn) (first :: rest)
  have hfound : ∀ p ∈ first :: rest, findParticipant db p.id = some p := by
    intro p hp
    exact find?_eq_self_of_nodup Participant.id db.participants hnd p (hsub p hp)
  have h1 : bulkCheckIn db (some ids) m user now
      = (.ok 200 (bulkUpdateLoop (m.getD "manual") now db (first :: rest)).2,
         updateEvent (bulkUpdateLoop (m.getD "manual") now db (first :: rest)).1 e.id
           (fun ev => { ev with totalAttendees := ev.totalAttendees
               + (bulkUpdateLoop (m.getD "manual") now db (first :: rest)).2.length })) := by
    unfold bulkCheckIn
    simp [hfil, he, hauth]
  rw [bulkUpdateLoop_snd (m.getD "manual") now (first :: rest) db] at h1
  have hev : findEvent (bulkUpdateLoop (m.getD "manual") now db (first :: rest)).1 e.id
      = findEvent db e.id := by
    unfold findEvent
    rw [bulkUpdateLoop_events]
  have he' : findEvent db e.id = some e := by
    rw [hid]
    exact he
  refine ⟨by rw [h1], ?_, ?_, ?_, ?_, ?_⟩
  · rw [List.length_map]
    omega
  · omega
  · rw [h1]
    show findEvent (updateEvent _ _ _) e.id = _
    rw [findEvent_updateEvent_self _ e.id
          (fun ev => { ev with totalAttendees := ev.totalAttendees
              + (((first :: rest).filter (fun p => !p.checkedIn)).map
                  (checkInFields (m.getD "manual") now)).length })
          (fun ev => rfl),
        hev, he']
    rfl
  · intro p hp hci
    rw [h1]
    show findParticipant (updateEvent _ _ _) p.id = _
    rw [findParticipant_updateEvent,
        bulkUpdateLoop_find_mem (m.getD "manual") now (first :: rest) db p
          hmatchednd hp hci,
        hfound p hp]
    rfl
  · intro p hp hci
    rw [h1]
    show findParticipant (updateEvent _ _ _) p.id = _
    have hnone : ∀ q ∈ first :: rest, q.checkedIn = false → q.id ≠ p.id := by
      intro q hq hqc hqe
      have : q = p := eq_of_key_eq_of_nodup Participant.id (first :: rest)
        hmatchednd p q hp hq hqe
      rw [this, hci] at hqc
      cases hqc
    rw [findParticipant_updateEvent,
        bulkUpdateLoop_find_not_mem (m.getD "manual") now (first :: rest) db p.id hnone,
        hfound p hp]

/-- Witness for claim C6: bulk check-in of the three ids 1, 2 and 5 on
the concrete store (id 2 already checked in) returns the two updated
rows, writes them as single check-in would, leaves row 2 untouched, and
bumps totalAttendees by exactly 2. -/
theorem bulk_checkin_counts_witness :
    (bulkCheckIn dbBulk (some [1, 2, 5]) none organizer7 9).1
      = .ok 200 [checkInFields "manual" 9 pB1, checkInFields "manual" 9 pB3]
    ∧ findEvent (bulkCheckIn dbBulk (some [1, 2, 5]) none organizer7 9).2 1
      = some { evOpen with totalAttendees := evOpen.totalAttendees + 2 }
    ∧ findParticipant (bulkCheckIn dbBulk (some [1, 2, 5]) none organizer7 9).2 1
      = some (checkInFields "manual" 9 pB1)
    ∧ findParticipant (bulkCheckIn dbBulk (some [1, 2, 5]) none organizer7 9).2 2
      = some pB2 := by
  have h := bulk_checkin_counts dbBulk [1, 2, 5] organizer7 none 9 evOpen pB1 [pB2, pB3]
    (by decide) (by decide) (by decide) rfl rfl rfl
  exact ⟨h.1, h.2.2.2.1, h.2.2.2.2.1 pB1 (by decide) rfl, h.2.2.2.2.2 pB2 (by decide) rfl⟩

end Haaflah
